import Mathlib

/-!
Shallow embedding of the ghost-classification engine of
`src/oci-loadbalancer-ghosthunter.py` (method `analyze_load_balancer_health`,
lines 122-289), together with theorems settling the frozen claims about it.

The Python function receives a plain dictionary `lb_data`.  Its typed fields
are modelled directly; the values stored under the `backend_sets` and
`listeners` keys are arbitrary Python objects at runtime, so they are
modelled by `RawVal`: either a well-shaped value or a malformed one that
raises (with the stored message) as soon as the code accesses it as a
mapping (`.get`).  The standard-library call `datetime.fromisoformat` is
external to the repository and is modelled as an explicit parameter
`parse : String → Option Int` returning the creation instant in epoch
seconds (`none` = parse failure); `datetime.now(timezone.utc)` is the
explicit parameter `now` (epoch seconds).  `timedelta.days` floors toward
minus infinity, hence `Int.fdiv _ 86400`.
-/

namespace GhostHunter

/-- One backend of a backend set (`{'ip_address': ..., 'port': ..., 'offline': ...}`);
`offline = none` models an absent `offline` key. -/
structure Backend where
  ip_address : String
  port : Nat
  offline : Option Bool
deriving DecidableEq

/-- A backend set: `{'backends': [...]}`. -/
structure BackendSet where
  backends : List Backend
deriving DecidableEq

/-- A listener: `{'protocol': ..., 'port': ..., 'default_backend_set_name': ...}`;
`none` models an absent key (or Python `None` value, which `.get` also yields). -/
structure Listener where
  protocol : Option String
  port : Option Nat
  default_backend_set_name : Option String
deriving DecidableEq

/-- A Python dictionary value that is either well-shaped (`good`) or malformed
(`bad msg`): accessing a malformed value as a mapping raises an exception whose
description is `msg`. -/
inductive RawVal (α : Type) where
  | good : α → RawVal α
  | bad : String → RawVal α
deriving DecidableEq

/-- Accessing a raw dictionary value as a mapping: a malformed value raises. -/
def RawVal.get {α : Type} : RawVal α → Except String α
  | .good a => .ok a
  | .bad e => .error e

/-- The `lb_data` dictionary handed to `analyze_load_balancer_health`.
`Option` fields model possibly-absent keys; the dict-valued fields keep the
Python dictionaries' insertion order as association lists. -/
structure Record where
  display_name : Option String
  id : Option String
  lifecycle_state : Option String
  time_created : Option String
  shape_name : Option String
  bandwidth_in_mbps : Option Nat
  backend_sets : List (String × RawVal BackendSet)
  listeners : List (String × RawVal Listener)
  certificates : List String
  freeform_tags : List (String × String)
  defined_tags : List (String × List (String × String))
deriving DecidableEq

/-- The flat result dictionary returned by `analyze_load_balancer_health`
(lines 249-267 on success, 272-289 on failure). -/
structure Verdict where
  LoadBalancerName : String
  LoadBalancerType : String
  Compartment : String
  Shape : String
  LifecycleState : String
  GhostScore : Nat
  GhostStatus : String
  GhostReasons : String
  BackendSetCount : Nat
  ListenerCount : Nat
  CertificateCount : Nat
  TimeCreated : String
  LoadBalancerId : String
  Tags : String
  BackendSetDetails : String
  ListenerDetails : String
deriving DecidableEq

/-- Extract the (name, value) pairs of a raw dictionary, raising at the first
malformed value — exactly the observable outcome of a Python `for` loop over
`.items()` that calls `.get` on every value: either the whole loop completes
(all values well-shaped) or the exception of the first malformed value
propagates. -/
def getPairs {α : Type} : List (String × RawVal α) → Except String (List (String × α))
  | [] => .ok []
  | (name, v) :: rest =>
    match v.get with
    | .error e => .error e
    | .ok a =>
      match getPairs rest with
      | .error e => .error e
      | .ok as => .ok ((name, a) :: as)

/-- `[b for b in backends if not b.get('offline', True)]` (line 150):
a backend with an absent `offline` flag defaults to offline. -/
def healthyBackends (backends : List Backend) : List Backend :=
  backends.filter (fun b => !(b.offline.getD true))

/-- The per-set emptiness test of lines 146-152: a backend set is counted
empty when it has no backends, or when it has no healthy backend. -/
def bs_is_empty (bs_data : BackendSet) : Bool :=
  bs_data.backends.isEmpty || (healthyBackends bs_data.backends).isEmpty

/-- Backend-set rule, lines 137-160: returns this rule's score contribution
and reasons (the loop's `total_backends` accumulator is dead code and is not
modelled). -/
def backendRule (backend_sets : List (String × RawVal BackendSet)) :
    Except String (Nat × List String) :=
  if backend_sets.isEmpty then
    .ok (50, ["No backend sets configured"])
  else
    match getPairs backend_sets with
    | .error e => .error e
    | .ok sets =>
      let empty_backend_count := sets.countP (fun p => bs_is_empty p.2)
      if empty_backend_count = backend_sets.length then
        .ok (45, ["All backend sets are empty or offline"])
      else if 0 < empty_backend_count then
        .ok (25, ["Some backend sets are empty (" ++ toString empty_backend_count ++
                  "/" ++ toString backend_sets.length ++ ")"])
      else
        .ok (0, [])

/-- The dangling test of lines 170-171: `if not default_backend or
default_backend not in backend_sets` (Python `not` holds of `None` and `""`;
membership tests the dictionary keys). -/
def isDangling (backend_set_keys : List String) (listener_data : Listener) : Bool :=
  match listener_data.default_backend_set_name with
  | none => true
  | some s => s = "" || !(backend_set_keys.contains s)

/-- Listener rule, lines 163-179. -/
def listenerRule (backend_set_keys : List String)
    (listeners : List (String × RawVal Listener)) :
    Except String (Nat × List String) :=
  if listeners.isEmpty then
    .ok (40, ["No listeners configured"])
  else
    match getPairs listeners with
    | .error e => .error e
    | .ok ls =>
      let listeners_without_backends := ls.countP (fun p => isDangling backend_set_keys p.2)
      if listeners_without_backends = listeners.length then
        .ok (35, ["All listeners lack valid backend sets"])
      else if 0 < listeners_without_backends then
        .ok (20, ["Some listeners lack backend sets (" ++ toString listeners_without_backends ++
                  "/" ++ toString listeners.length ++ ")"])
      else
        .ok (0, [])

/-- Python's `str.upper()`, modelled characterwise (`Char.toUpper` matches
`str.upper` on the ASCII protocol names this program compares against). -/
def pyUpper (s : String) : String :=
  ⟨s.data.map Char.toUpper⟩

/-- `l.get('protocol', '').upper() in ['HTTPS', 'SSL']` (line 184). -/
def isHttpsListener (listener_data : Listener) : Bool :=
  ["HTTPS", "SSL"].contains (pyUpper (listener_data.protocol.getD ""))

/-- Certificate rule, lines 182-187: only Classic load balancers with an empty
certificate dictionary are examined, and only then are listener values read. -/
def certRule (lb_type : String) (listeners : List (String × RawVal Listener))
    (certificates : List String) : Except String (Nat × List String) :=
  if lb_type = "Classic" && certificates.isEmpty then
    match getPairs listeners with
    | .error e => .error e
    | .ok ls =>
      let https_listeners := (ls.map Prod.snd).filter isHttpsListener
      if https_listeners.isEmpty then
        .ok (0, [])
      else
        .ok (15, ["HTTPS listeners without SSL certificates"])
  else
    .ok (0, [])

/-- Lifecycle rule, lines 190-193 (the caller substitutes `"UNKNOWN"` for an
absent `lifecycle_state` key via `.get`). -/
def lifecycleRule (lifecycle_state : String) : Nat × List String :=
  if !((["ACTIVE", "CREATING"] : List String).contains lifecycle_state) then
    (30, ["Load balancer in " ++ lifecycle_state ++ " state"])
  else
    (0, [])

/-- Stale-bonus rule, lines 196-206: an absent or falsy (`""`) timestamp is
skipped; a parse failure is swallowed by the bare `except`; otherwise
`days_old = (now - created_date).days` and the bonus fires only when the load
balancer is over 30 days old and the score so far already exceeds 40. -/
def staleRule (parse : String → Option Int) (now : Int)
    (time_created : Option String) (ghost_score : Nat) : Nat × List String :=
  match time_created with
  | none => (0, [])
  | some s =>
    if s = "" then (0, [])
    else
      match parse (s.replace "Z" "+00:00") with
      | none => (0, [])
      | some created_date =>
        let days_old : Int := Int.fdiv (now - created_date) 86400
        if 30 < days_old ∧ 40 < ghost_score then
          (10, ["Created " ++ toString days_old ++ " days ago with issues"])
        else
          (0, [])

/-- Status derivation from the final score, lines 209-218. -/
def ghost_status_of (ghost_score : Nat) : String :=
  if 80 ≤ ghost_score then "DEFINITE GHOST"
  else if 60 ≤ ghost_score then "LIKELY GHOST"
  else if 40 ≤ ghost_score then "SUSPICIOUS"
  else if 20 ≤ ghost_score then "REVIEW NEEDED"
  else "ACTIVE"

/-- Rules 1-5 in evaluation order, accumulating score and reasons
(lines 125-206): rule 5 reads the score accumulated by rules 1-4. -/
def scoreAndReasons (parse : String → Option Int) (now : Int)
    (lb_data : Record) (lb_type : String) : Except String (Nat × List String) :=
  match backendRule lb_data.backend_sets with
  | .error e => .error e
  | .ok res1 =>
    match listenerRule (lb_data.backend_sets.map Prod.fst) lb_data.listeners with
    | .error e => .error e
    | .ok res2 =>
      match certRule lb_type lb_data.listeners lb_data.certificates with
      | .error e => .error e
      | .ok res3 =>
        let res4 := lifecycleRule (lb_data.lifecycle_state.getD "UNKNOWN")
        let pre := res1.1 + res2.1 + res3.1 + res4.1
        let res5 := staleRule parse now lb_data.time_created pre
        .ok (pre + res5.1, res1.2 ++ res2.2 ++ res3.2 ++ res4.2 ++ res5.2)

/-- `"{bs_name}:{healthy}/{total} healthy"` (lines 221-225). -/
def backendSetDetail (p : String × BackendSet) : String :=
  p.1 ++ ":" ++ toString (healthyBackends p.2.backends).length ++ "/" ++
    toString p.2.backends.length ++ " healthy"

/-- `"{name}:{protocol}:{port}->>{backend_set}"` (lines 227-232), with the
Python defaults for absent keys. -/
def listenerDetail (p : String × Listener) : String :=
  let protocol := p.2.protocol.getD "Unknown"
  let port := match p.2.port with | some n => toString n | none => "Unknown"
  let backend_set := p.2.default_backend_set_name.getD "None"
  p.1 ++ ":" ++ protocol ++ ":" ++ port ++ "->>" ++ backend_set

/-- Shape string, lines 234-237: Network load balancers display their
bandwidth instead of `shape_name`. -/
def shapeOf (lb_type : String) (lb_data : Record) : String :=
  let shape := lb_data.shape_name.getD "Unknown"
  if lb_type = "Network" then
    "Network-" ++ (match lb_data.bandwidth_in_mbps with
                   | some n => toString n
                   | none => "Unknown") ++ "Mbps"
  else shape

/-- Flattened tag strings, lines 240-247. -/
def tagStrings (freeform_tags : List (String × String))
    (defined_tags : List (String × List (String × String))) : List String :=
  freeform_tags.map (fun kv => kv.1 ++ "=" ++ kv.2) ++
    (defined_tags.map (fun nt => nt.2.map (fun kv => nt.1 ++ "." ++ kv.1 ++ "=" ++ kv.2))).flatten

/-- `time_created or "Unknown"` (line 261): Python `or` replaces falsy values,
so an absent key and an empty string both display as "Unknown". -/
def orUnknown : Option String → String
  | none => "Unknown"
  | some s => if s = "" then "Unknown" else s

/-- The `try` body of `analyze_load_balancer_health` (lines 124-267): scoring,
status, detail strings and the result dictionary; any exception raised while
reading malformed values escapes as `.error`. -/
def analyzeBody (parse : String → Option Int) (now : Int) (lb_data : Record)
    (compartment_name : String) (lb_type : String) : Except String Verdict :=
  match scoreAndReasons parse now lb_data lb_type with
  | .error e => .error e
  | .ok scored =>
    match getPairs lb_data.backend_sets with
    | .error e => .error e
    | .ok bsPairs =>
      match getPairs lb_data.listeners with
      | .error e => .error e
      | .ok lsPairs =>
        .ok {
          LoadBalancerName := lb_data.display_name.getD "Unknown"
          LoadBalancerType := lb_type
          Compartment := compartment_name
          Shape := shapeOf lb_type lb_data
          LifecycleState := lb_data.lifecycle_state.getD "UNKNOWN"
          GhostScore := scored.1
          GhostStatus := ghost_status_of scored.1
          GhostReasons := String.intercalate "; " scored.2
          BackendSetCount := lb_data.backend_sets.length
          ListenerCount := lb_data.listeners.length
          CertificateCount := lb_data.certificates.length
          TimeCreated := orUnknown lb_data.time_created
          LoadBalancerId := lb_data.id.getD "Unknown"
          Tags := String.intercalate "; " (tagStrings lb_data.freeform_tags lb_data.defined_tags)
          BackendSetDetails := String.intercalate "; " (bsPairs.map backendSetDetail)
          ListenerDetails := String.intercalate "; " (lsPairs.map listenerDetail)
        }

/-- The `except` branch, lines 269-289: the degraded verdict for a record whose
analysis raised the exception described by `e`. -/
def errorVerdict (lb_data : Record) (compartment_name lb_type e : String) : Verdict :=
  { LoadBalancerName := lb_data.display_name.getD "Unknown"
    LoadBalancerType := lb_type
    Compartment := compartment_name
    Shape := "Unknown"
    LifecycleState := "Unknown"
    GhostScore := 0
    GhostStatus := "ANALYSIS FAILED"
    GhostReasons := "Error during analysis: " ++ e
    BackendSetCount := 0
    ListenerCount := 0
    CertificateCount := 0
    TimeCreated := "Unknown"
    LoadBalancerId := lb_data.id.getD "Unknown"
    Tags := ""
    BackendSetDetails := ""
    ListenerDetails := "" }

/-- `analyze_load_balancer_health` (lines 122-289): the `try`/`except` pair —
always returns a verdict, degrading to `errorVerdict` on any exception. -/
def analyze_load_balancer_health (parse : String → Option Int) (now : Int)
    (lb_data : Record) (compartment_name : String) (lb_type : String) : Verdict :=
  match analyzeBody parse now lb_data compartment_name lb_type with
  | .ok result => result
  | .error e => errorVerdict lb_data compartment_name lb_type e

/-- Injection of a fully well-shaped dictionary into the raw-value model. -/
def goodVals {α : Type} (l : List (String × α)) : List (String × RawVal α) :=
  l.map (fun p => (p.1, RawVal.good p.2))

/-- A timestamp parser that fails on every input (irrelevant for records
without a usable `time_created`). -/
def parse_none : String → Option Int := fun _ => none

/-- A concrete `datetime.fromisoformat` behaviour mapping every timestamp
string to the instant 0; paired with `now = 100 * 86400` it makes a record
100 days old. -/
def parse_100 : String → Option Int := fun _ => some 0

/-- Scenario B of the spec: a Network load balancer, one backend set with two
backends that are both offline, one listener whose default backend set is that
set, lifecycle state ACTIVE, no creation timestamp. -/
def scenario_b : Record :=
  { display_name := some "nlb-b", id := some "ocid-b",
    lifecycle_state := some "ACTIVE", time_created := none,
    shape_name := none, bandwidth_in_mbps := some 10,
    backend_sets :=
      [("bs1", .good ⟨[⟨"10.0.0.1", 80, some true⟩, ⟨"10.0.0.2", 80, some true⟩]⟩)],
    listeners := [("l1", .good ⟨some "TCP", some 80, some "bs1"⟩)],
    certificates := [], freeform_tags := [], defined_tags := [] }

/-- Scenario C of the spec: a Classic load balancer, one healthy backend set,
one HTTPS listener pointing at it, no certificates, lifecycle state ACTIVE. -/
def scenario_c : Record :=
  { display_name := some "lb-c", id := some "ocid-c",
    lifecycle_state := some "ACTIVE", time_created := none,
    shape_name := some "100Mbps", bandwidth_in_mbps := none,
    backend_sets := [("bs1", .good ⟨[⟨"10.0.0.1", 443, some false⟩]⟩)],
    listeners := [("l1", .good ⟨some "HTTPS", some 443, some "bs1"⟩)],
    certificates := [], freeform_tags := [], defined_tags := [] }

/-- A malformed record: the value stored under the backend-set name `bs1` is
not map-shaped, so reading it raises `AttributeError`. -/
def bad_record : Record :=
  { display_name := some "bad", id := some "ocid-bad",
    lifecycle_state := some "ACTIVE", time_created := none,
    shape_name := none, bandwidth_in_mbps := none,
    backend_sets := [("bs1", .bad "AttributeError")],
    listeners := [], certificates := [], freeform_tags := [], defined_tags := [] }

/-- A healthy record aged 100 days whose rules 1-4 contribute nothing: one
healthy backend set, one TCP listener pointing at it, a certificate, ACTIVE. -/
def rec_100 : Record :=
  { display_name := some "old", id := some "ocid-old",
    lifecycle_state := some "ACTIVE", time_created := some "2020-01-01T00:00:00Z",
    shape_name := none, bandwidth_in_mbps := none,
    backend_sets := [("bs1", .good ⟨[⟨"10.0.0.1", 80, some false⟩]⟩)],
    listeners := [("l1", .good ⟨some "TCP", some 80, some "bs1"⟩)],
    certificates := ["c1"], freeform_tags := [], defined_tags := [] }

/-- A record whose `lifecycle_state` key is absent. -/
def rec_nostate : Record :=
  { display_name := some "stateless", id := some "ocid-ns",
    lifecycle_state := none, time_created := none,
    shape_name := none, bandwidth_in_mbps := none,
    backend_sets := [], listeners := [], certificates := [],
    freeform_tags := [], defined_tags := [] }

/-- Reading back a dictionary all of whose values are well-shaped yields
exactly its pairs. -/
theorem getPairs_goodVals {α : Type} (l : List (String × α)) :
    getPairs (goodVals l) = .ok l := by
  induction l with
  | nil => rfl
  | cons p t ih =>
    obtain ⟨name, v⟩ := p
    simp only [goodVals, List.map_cons] at ih ⊢
    simp [getPairs, RawVal.get, ih]

/-- C1 counterexample: on the scenario-B record the classifier does return
score 45, but the resulting status is "SUSPICIOUS" — not "LIKELY GHOST" as the
claim states (45 is below the ≥ 60 threshold for LIKELY GHOST). -/
theorem scenario_b_counterexample :
    (analyze_load_balancer_health parse_none 0 scenario_b "prod" "Network").GhostScore = 45 ∧
    (analyze_load_balancer_health parse_none 0 scenario_b "prod" "Network").GhostStatus =
      "SUSPICIOUS" ∧
    ¬ (analyze_load_balancer_health parse_none 0 scenario_b "prod" "Network").GhostStatus =
      "LIKELY GHOST" := by
  refine ⟨by decide, by decide, by decide⟩

/-- C1 (amended): for the scenario-B record — Network type, one backend set
with two offline backends, one listener naming that set, lifecycle ACTIVE, no
timestamp — the score is 45 (only the +45 all-backend-sets-offline
contribution; the listener is not dangling and the certificate rule is skipped
for Network type) and the resulting status is SUSPICIOUS. -/
theorem scenario_b_amended :
    (analyze_load_balancer_health parse_none 0 scenario_b "prod" "Network").GhostScore = 45 ∧
    (analyze_load_balancer_health parse_none 0 scenario_b "prod" "Network").GhostStatus =
      "SUSPICIOUS" ∧
    (analyze_load_balancer_health parse_none 0 scenario_b "prod" "Network").GhostReasons =
      "All backend sets are empty or offline" := by
  refine ⟨by decide, by decide, by decide⟩

/-- C2: the classifier always returns a verdict; whenever the analysis body
raises an error `e`, the returned verdict is the degraded one — status
"ANALYSIS FAILED", score 0, and a reason embedding the error description. -/
theorem analysis_failure_degrades (parse : String → Option Int) (now : Int)
    (lb_data : Record) (compartment_name lb_type e : String)
    (h : analyzeBody parse now lb_data compartment_name lb_type = .error e) :
    analyze_load_balancer_health parse now lb_data compartment_name lb_type =
      errorVerdict lb_data compartment_name lb_type e ∧
    (analyze_load_balancer_health parse now lb_data compartment_name lb_type).GhostStatus =
      "ANALYSIS FAILED" ∧
    (analyze_load_balancer_health parse now lb_data compartment_name lb_type).GhostScore = 0 ∧
    (analyze_load_balancer_health parse now lb_data compartment_name lb_type).GhostReasons =
      "Error during analysis: " ++ e := by
  unfold analyze_load_balancer_health
  rw [h]
  exact ⟨rfl, rfl, rfl, rfl⟩

/-- C2 witness: a concrete malformed record (its backend-set value is not
map-shaped) errors in the body and is degraded, not thrown. -/
theorem analysis_failure_degrades_witness :
    analyzeBody parse_none 0 bad_record "dev" "Classic" = .error "AttributeError" ∧
    (analyze_load_balancer_health parse_none 0 bad_record "dev" "Classic").GhostStatus =
      "ANALYSIS FAILED" ∧
    (analyze_load_balancer_health parse_none 0 bad_record "dev" "Classic").GhostScore = 0 ∧
    (analyze_load_balancer_health parse_none 0 bad_record "dev" "Classic").GhostReasons =
      "Error during analysis: " ++ "AttributeError" :=
  ⟨rfl, (analysis_failure_degrades parse_none 0 bad_record "dev" "Classic" "AttributeError"
      rfl).2⟩

/-- C3: status derivation is total with closed-below boundaries: ≥ 80 DEFINITE
GHOST, [60, 80) LIKELY GHOST, [40, 60) SUSPICIOUS, [20, 40) REVIEW NEEDED,
< 20 ACTIVE; in particular 80, 79, 40, 20 and 19 land as stated. -/
theorem ghost_status_thresholds :
    (∀ s : Nat,
      (80 ≤ s → ghost_status_of s = "DEFINITE GHOST") ∧
      (60 ≤ s ∧ s < 80 → ghost_status_of s = "LIKELY GHOST") ∧
      (40 ≤ s ∧ s < 60 → ghost_status_of s = "SUSPICIOUS") ∧
      (20 ≤ s ∧ s < 40 → ghost_status_of s = "REVIEW NEEDED") ∧
      (s < 20 → ghost_status_of s = "ACTIVE")) ∧
    ghost_status_of 80 = "DEFINITE GHOST" ∧ ghost_status_of 79 = "LIKELY GHOST" ∧
    ghost_status_of 40 = "SUSPICIOUS" ∧ ghost_status_of 20 = "REVIEW NEEDED" ∧
    ghost_status_of 19 = "ACTIVE" := by
  refine ⟨fun s => ⟨?_, ?_, ?_, ?_, ?_⟩, by decide, by decide, by decide, by decide, by decide⟩ <;>
      intro h <;> unfold ghost_status_of
  · rw [if_pos h]
  · rw [if_neg (by omega), if_pos (by omega)]
  · rw [if_neg (by omega), if_neg (by omega), if_pos (by omega)]
  · rw [if_neg (by omega), if_neg (by omega), if_neg (by omega), if_pos (by omega)]
  · rw [if_neg (by omega), if_neg (by omega), if_neg (by omega), if_neg (by omega)]

/-- C3 witness: the five tiers at concrete scores. -/
theorem ghost_status_thresholds_witness :
    ghost_status_of 100 = "DEFINITE GHOST" ∧ ghost_status_of 65 = "LIKELY GHOST" ∧
    ghost_status_of 45 = "SUSPICIOUS" ∧ ghost_status_of 25 = "REVIEW NEEDED" ∧
    ghost_status_of 5 = "ACTIVE" :=
  ⟨(ghost_status_thresholds.1 100).1 (by decide),
   (ghost_status_thresholds.1 65).2.1 (by decide),
   (ghost_status_thresholds.1 45).2.2.1 (by decide),
   (ghost_status_thresholds.1 25).2.2.2.1 (by decide),
   (ghost_status_thresholds.1 5).2.2.2.2 (by decide)⟩

/-- C8: classification is a pure, deterministic function of the record and the
current time: the embedding of `analyze_load_balancer_health` reads nothing
but its arguments (the Python body touches no attribute of `self` and no
global mutable state; its only ambient input, the current UTC time, is the
explicit `now`), so classifying equal records with the same `now` yields
identical verdicts in every field. -/
theorem classify_deterministic (parse : String → Option Int) (now : Int)
    (r1 r2 : Record) (compartment_name lb_type : String) (h : r1 = r2) :
    analyze_load_balancer_health parse now r1 compartment_name lb_type =
      analyze_load_balancer_health parse now r2 compartment_name lb_type ∧
    (analyze_load_balancer_health parse now r1 compartment_name lb_type).GhostScore =
      (analyze_load_balancer_health parse now r2 compartment_name lb_type).GhostScore ∧
    (analyze_load_balancer_health parse now r1 compartment_name lb_type).GhostStatus =
      (analyze_load_balancer_health parse now r2 compartment_name lb_type).GhostStatus ∧
    (analyze_load_balancer_health parse now r1 compartment_name lb_type).GhostReasons =
      (analyze_load_balancer_health parse now r2 compartment_name lb_type).GhostReasons := by
  subst h
  exact ⟨rfl, rfl, rfl, rfl⟩

/-- C8 witness: two classifications of the scenario-B record coincide. -/
theorem classify_deterministic_witness :
    analyze_load_balancer_health parse_none 0 scenario_b "prod" "Network" =
      analyze_load_balancer_health parse_none 0 scenario_b "prod" "Network" :=
  (classify_deterministic parse_none 0 scenario_b scenario_b "prod" "Network" rfl).1

/-- A backend is counted healthy exactly when its `offline` flag is present
and false. -/
theorem offline_getD_iff (b : Backend) :
    b.offline.getD true = true ↔ ¬ b.offline = some false := by
  cases h : b.offline with
  | none => simp
  | some v => cases v <;> simp

/-- The per-set emptiness test holds exactly when the set has no backends or
none of its backends is explicitly non-offline. -/
theorem bs_is_empty_iff (bs : BackendSet) :
    bs_is_empty bs = true ↔
      (bs.backends = [] ∨ ∀ b ∈ bs.backends, ¬ b.offline = some false) := by
  unfold bs_is_empty healthyBackends
  cases hb : bs.backends with
  | nil => simp
  | cons b t =>
    simp only [hb, List.isEmpty_cons, Bool.false_or, List.isEmpty_eq_true,
      List.filter_eq_nil_iff]
    constructor
    · intro h
      exact Or.inr (fun a ha => (offline_getD_iff a).1 (by simpa using h a ha))
    · intro h a ha
      rcases h with h | h
      · cases h
      · simp [(offline_getD_iff a).2 (h a ha)]

/-- C4: the backend-set rule — an empty dictionary contributes exactly +50
with its reason and nothing else; otherwise a set counts as empty iff it has
zero backends or no explicitly non-offline backend, and the contribution is
+45 (all empty), +25 with the k/n reason (some empty), or 0 (none empty). -/
theorem backend_rule_spec :
    (∀ bs : BackendSet, bs_is_empty bs = true ↔
      (bs.backends = [] ∨ ∀ b ∈ bs.backends, ¬ b.offline = some false)) ∧
    backendRule (goodVals []) = .ok (50, ["No backend sets configured"]) ∧
    (∀ bsets : List (String × BackendSet), bsets ≠ [] →
      backendRule (goodVals bsets) =
        (if bsets.countP (fun p => bs_is_empty p.2) = bsets.length then
           .ok (45, ["All backend sets are empty or offline"])
         else if 0 < bsets.countP (fun p => bs_is_empty p.2) then
           .ok (25, ["Some backend sets are empty (" ++
                toString (bsets.countP (fun p => bs_is_empty p.2)) ++ "/" ++
                toString bsets.length ++ ")"])
         else .ok (0, []))) := by
  refine ⟨bs_is_empty_iff, rfl, ?_⟩
  intro bsets hne
  have hE : (goodVals bsets).isEmpty = false := by
    simp [goodVals, hne]
  have hL : (goodVals bsets).length = bsets.length := by
    simp [goodVals]
  unfold backendRule
  rw [hE, getPairs_goodVals, hL]
  simp

/-- C4 witness: both tiers at concrete inputs — no sets at all, and one
offline set next to one healthy set. -/
theorem backend_rule_spec_witness :
    backendRule (goodVals []) = .ok (50, ["No backend sets configured"]) ∧
    backendRule (goodVals
        [("a", ⟨[⟨"10.0.0.1", 80, some true⟩]⟩), ("b", ⟨[⟨"10.0.0.2", 80, some false⟩]⟩)]) =
      .ok (25, ["Some backend sets are empty (1/2)"]) := by
  refine ⟨backend_rule_spec.2.1, ?_⟩
  have h := backend_rule_spec.2.2
      [("a", ⟨[⟨"10.0.0.1", 80, some true⟩]⟩), ("b", ⟨[⟨"10.0.0.2", 80, some false⟩]⟩)]
      (by decide)
  exact h.trans (by rfl)

/-- A listener is dangling exactly when its default backend-set name is
absent, empty, or not one of the backend-set keys. -/
theorem isDangling_iff (keys : List String) (l : Listener) :
    isDangling keys l = true ↔
      ∀ s, l.default_backend_set_name = some s → s = "" ∨ ¬ s ∈ keys := by
  cases h : l.default_backend_set_name with
  | none => simp [isDangling, h]
  | some s =>
    simp only [isDangling, h, Bool.or_eq_true, decide_eq_true_eq, Bool.not_eq_true',
      Option.some.injEq]
    constructor
    · rintro (h1 | h1) s2 h2
      · exact h2 ▸ Or.inl h1
      · exact h2 ▸ Or.inr (by simpa using h1)
    · intro h1
      rcases h1 s rfl with h2 | h2
      · exact Or.inl h2
      · exact Or.inr (by simpa using h2)

/-- C5: the listener rule — an empty dictionary contributes exactly +40 with
its reason; otherwise a listener is dangling iff its default backend-set name
is absent/empty or not a backend-set key, and the contribution is +35 (all
dangling), +20 with the k/n reason (some dangling), or 0 (none dangling). -/
theorem listener_rule_spec :
    (∀ (keys : List String) (l : Listener), isDangling keys l = true ↔
      ∀ s, l.default_backend_set_name = some s → s = "" ∨ ¬ s ∈ keys) ∧
    (∀ keys : List String,
      listenerRule keys (goodVals []) = .ok (40, ["No listeners configured"])) ∧
    (∀ (keys : List String) (ls : List (String × Listener)), ls ≠ [] →
      listenerRule keys (goodVals ls) =
        (if ls.countP (fun p => isDangling keys p.2) = ls.length then
           .ok (35, ["All listeners lack valid backend sets"])
         else if 0 < ls.countP (fun p => isDangling keys p.2) then
           .ok (20, ["Some listeners lack backend sets (" ++
                toString (ls.countP (fun p => isDangling keys p.2)) ++ "/" ++
                toString ls.length ++ ")"])
         else .ok (0, []))) := by
  refine ⟨isDangling_iff, fun keys => rfl, ?_⟩
  intro keys ls hne
  have hE : (goodVals ls).isEmpty = false := by
    simp [goodVals, hne]
  have hL : (goodVals ls).length = ls.length := by
    simp [goodVals]
  unfold listenerRule
  rw [hE, getPairs_goodVals, hL]
  simp

/-- C5 witness: no listeners, and one dangling listener next to one valid
listener. -/
theorem listener_rule_spec_witness :
    listenerRule ["bs1"] (goodVals []) = .ok (40, ["No listeners configured"]) ∧
    listenerRule ["bs1"] (goodVals
        [("l1", ⟨some "TCP", some 80, some "bs1"⟩), ("l2", ⟨some "TCP", some 81, none⟩)]) =
      .ok (20, ["Some listeners lack backend sets (1/2)"]) := by
  refine ⟨listener_rule_spec.2.1 ["bs1"], ?_⟩
  have h := listener_rule_spec.2.2 ["bs1"]
      [("l1", ⟨some "TCP", some 80, some "bs1"⟩), ("l2", ⟨some "TCP", some 81, none⟩)]
      (by decide)
  exact h.trans (by rfl)

/-- The HTTPS test holds exactly when the listener's protocol uppercases to
HTTPS or SSL (an absent protocol defaults to the empty string). -/
theorem isHttpsListener_iff (l : Listener) :
    isHttpsListener l = true ↔
      (pyUpper (l.protocol.getD "") = "HTTPS" ∨ pyUpper (l.protocol.getD "") = "SSL") := by
  simp [isHttpsListener]

/-- C6: the certificate rule fires (+15 with its reason) iff the record is
Classic-typed, has no certificates, and some listener's protocol uppercases to
HTTPS or SSL; Network-typed records never trigger it.  On scenario C the full
classifier returns score 15 and status ACTIVE. -/
theorem cert_rule_spec :
    (∀ (lb_type : String) (ls : List (String × Listener)) (certs : List String),
      certRule lb_type (goodVals ls) certs =
        .ok (if lb_type = "Classic" ∧ certs = [] ∧
               ∃ p ∈ ls, (pyUpper (p.2.protocol.getD "") = "HTTPS" ∨
                          pyUpper (p.2.protocol.getD "") = "SSL")
             then (15, ["HTTPS listeners without SSL certificates"])
             else (0, []))) ∧
    (∀ (ls : List (String × Listener)) (certs : List String),
      certRule "Network" (goodVals ls) certs = .ok (0, [])) ∧
    (analyze_load_balancer_health parse_none 0 scenario_c "prod" "Classic").GhostScore = 15 ∧
    (analyze_load_balancer_health parse_none 0 scenario_c "prod" "Classic").GhostStatus =
      "ACTIVE" := by
  refine ⟨?_, fun ls certs => rfl, by decide, by decide⟩
  intro t ls certs
  unfold certRule
  by_cases ht : t = "Classic"
  · by_cases hc : certs = []
    · subst hc
      have hcond : (t = "Classic" && ([] : List String).isEmpty) = true := by
        simp [ht]
      rw [hcond, getPairs_goodVals]
      by_cases he : ∃ p ∈ ls, (pyUpper (p.2.protocol.getD "") = "HTTPS" ∨
          pyUpper (p.2.protocol.getD "") = "SSL")
      · have hex := he
        obtain ⟨p, hp, hprot⟩ := hex
        have hhttps : isHttpsListener p.2 = true := (isHttpsListener_iff p.2).2 hprot
        have hfil : ((ls.map Prod.snd).filter isHttpsListener).isEmpty = false := by
          simp only [List.isEmpty_eq_false, ne_eq, List.filter_eq_nil_iff]
          push_neg
          exact ⟨p.2, List.mem_map_of_mem _ hp, by simp [hhttps]⟩
        simp [hfil, ht, he]
      · have hfil : ((ls.map Prod.snd).filter isHttpsListener).isEmpty = true := by
          simp only [List.isEmpty_eq_true, List.filter_eq_nil_iff]
          intro a ha hcontra
          obtain ⟨p, hp, hpa⟩ := List.mem_map.1 ha
          exact he ⟨p, hp, (isHttpsListener_iff p.2).1 (by rw [hpa]; exact hcontra)⟩
        simp [hfil, he]
    · have hcond : (t = "Classic" && certs.isEmpty) = false := by
        rcases certs with _ | ⟨c, cs⟩
        · exact absurd rfl hc
        · simp
      rw [hcond]
      simp [hc]
  · have hcond : (t = "Classic" && certs.isEmpty) = false := by
      simp [ht]
    rw [hcond]
    simp [ht]

/-- C7: the stale bonus is +10 with the "Created {days} days ago with issues"
reason exactly when `time_created` is present and truthy, parses successfully,
the age in days (floored, relative to `now`) exceeds 30, and the score
accumulated by rules 1-4 exceeds 40; an absent or unparseable timestamp
silently contributes nothing.  A record aged 100 days whose rules 1-4
contribute 0 receives no bonus: its final score is 0. -/
theorem stale_rule_spec :
    (∀ (parse : String → Option Int) (now : Int) (tc : Option String) (score : Nat),
      ¬ staleRule parse now tc score = (0, []) ↔
        ∃ s c, tc = some s ∧ ¬ s = "" ∧ parse (s.replace "Z" "+00:00") = some c ∧
          30 < Int.fdiv (now - c) 86400 ∧ 40 < score) ∧
    (∀ (parse : String → Option Int) (now : Int) (s : String) (c : Int) (score : Nat),
      ¬ s = "" → parse (s.replace "Z" "+00:00") = some c →
      30 < Int.fdiv (now - c) 86400 → 40 < score →
      staleRule parse now (some s) score =
        (10, ["Created " ++ toString (Int.fdiv (now - c) 86400) ++ " days ago with issues"])) ∧
    (∀ (parse : String → Option Int) (now : Int) (score : Nat),
      staleRule parse now none score = (0, [])) ∧
    (∀ (parse : String → Option Int) (now : Int) (s : String) (score : Nat),
      parse (s.replace "Z" "+00:00") = none → staleRule parse now (some s) score = (0, [])) ∧
    (analyze_load_balancer_health parse_100 (100 * 86400) rec_100 "prod" "Classic").GhostScore
      = 0 := by
  refine ⟨?_, ?_, fun parse now score => rfl, ?_, by decide⟩
  · intro parse now tc score
    constructor
    · intro h
      cases tc with
      | none => exact absurd rfl h
      | some s =>
        by_cases hs : s = ""
        · exact absurd (by simp [staleRule, hs]) h
        · cases hp : parse (s.replace "Z" "+00:00") with
          | none => exact absurd (by simp [staleRule, hs, hp]) h
          | some c =>
            by_cases hcond : 30 < Int.fdiv (now - c) 86400 ∧ 40 < score
            · exact ⟨s, c, rfl, hs, hp, hcond.1, hcond.2⟩
            · exact absurd (by simp [staleRule, hs, hp, hcond]) h
    · rintro ⟨s, c, rfl, hs, hp, h30, h40⟩
      simp [staleRule, hs, hp, h30, h40]
  · intro parse now s c score hs hp h30 h40
    simp [staleRule, hs, hp, h30, h40]
  · intro parse now s score hp
    by_cases hs : s = ""
    · simp [staleRule, hs]
    · simp [staleRule, hs, hp]

/-- C7 witness: the bonus fires on a concrete 100-day-old record whose prior
score is 50. -/
theorem stale_rule_spec_witness :
    staleRule parse_100 (100 * 86400) (some "2020-01-01T00:00:00Z") 50 =
      (10, ["Created 100 days ago with issues"]) := by
  have h := stale_rule_spec.2.1 parse_100 (100 * 86400) "2020-01-01T00:00:00Z" 0 50
      (by decide) rfl (by decide) (by decide)
  exact h.trans (by decide)

/-- On success the backend rule contributes at most 50. -/
theorem backendRule_score_le (bs : List (String × RawVal BackendSet))
    (res : Nat × List String) (h : backendRule bs = .ok res) : res.1 ≤ 50 := by
  unfold backendRule at h
  split at h
  · injection h with h2; subst h2; simp
  · split at h
    · simp at h
    · simp only [] at h
      split at h
      · injection h with h2; subst h2; simp
      · split at h
        · injection h with h2; subst h2; simp
        · injection h with h2; subst h2; simp

/-- On success the listener rule contributes at most 40. -/
theorem listenerRule_score_le (keys : List String) (ls : List (String × RawVal Listener))
    (res : Nat × List String) (h : listenerRule keys ls = .ok res) : res.1 ≤ 40 := by
  unfold listenerRule at h
  split at h
  · injection h with h2; subst h2; simp
  · split at h
    · simp at h
    · simp only [] at h
      split at h
      · injection h with h2; subst h2; simp
      · split at h
        · injection h with h2; subst h2; simp
        · injection h with h2; subst h2; simp

/-- On success the certificate rule contributes at most 15. -/
theorem certRule_score_le (t : String) (ls : List (String × RawVal Listener))
    (certs : List String) (res : Nat × List String)
    (h : certRule t ls certs = .ok res) : res.1 ≤ 15 := by
  unfold certRule at h
  split at h
  · split at h
    · simp at h
    · simp only [] at h
      split at h
      · injection h with h2; subst h2; simp
      · injection h with h2; subst h2; simp
  · injection h with h2; subst h2; simp

/-- The lifecycle rule contributes at most 30. -/
theorem lifecycleRule_score_le (st : String) : (lifecycleRule st).1 ≤ 30 := by
  unfold lifecycleRule
  split <;> simp

/-- The stale rule contributes at most 10. -/
theorem staleRule_score_le (parse : String → Option Int) (now : Int)
    (tc : Option String) (score : Nat) : (staleRule parse now tc score).1 ≤ 10 := by
  unfold staleRule
  split
  · simp
  · split
    · simp
    · split
      · simp
      · simp only []
        split <;> simp

/-- On success rules 1-5 together stay at or below 145. -/
theorem scoreAndReasons_le (parse : String → Option Int) (now : Int)
    (lb_data : Record) (lb_type : String) (res : Nat × List String)
    (h : scoreAndReasons parse now lb_data lb_type = .ok res) : res.1 ≤ 145 := by
  unfold scoreAndReasons at h
  split at h
  · simp at h
  · split at h
    · simp at h
    · split at h
      · simp at h
      · rename_i x1 res1 h1 x2 res2 h2 x3 res3 h3
        simp only [] at h
        injection h with h4
        subst h4
        have b1 := backendRule_score_le _ _ h1
        have b2 := listenerRule_score_le _ _ _ h2
        have b3 := certRule_score_le _ _ _ _ h3
        have b4 := lifecycleRule_score_le (lb_data.lifecycle_state.getD "UNKNOWN")
        have b5 := staleRule_score_le parse now lb_data.time_created
          (res1.1 + res2.1 + res3.1 + (lifecycleRule (lb_data.lifecycle_state.getD "UNKNOWN")).1)
        simp only []
        omega

/-- C9: the score accumulates additively from 0 and is never clamped, yet on
every record that classifies without error the final score is at most the
spec's stated practical maximum of 180 (the rule contributions are bounded by
50 + 40 + 15 + 30 + 10 = 145). -/
theorem score_bounded (parse : String → Option Int) (now : Int) (lb_data : Record)
    (compartment_name lb_type : String) (v : Verdict)
    (h : analyzeBody parse now lb_data compartment_name lb_type = .ok v) :
    v.GhostScore ≤ 180 := by
  unfold analyzeBody at h
  split at h
  · simp at h
  · split at h
    · simp at h
    · split at h
      · simp at h
      · rename_i x1 scored hs x2 bsPairs hbs x3 lsPairs hls
        injection h with h2
        subst h2
        have := scoreAndReasons_le parse now lb_data lb_type scored hs
        simp only []
        omega

/-- C9 witness: the scenario-B record classifies without error and its score
is within the bound. -/
theorem score_bounded_witness :
    (analyze_load_balancer_health parse_none 0 scenario_b "prod" "Network").GhostScore
      ≤ 180 :=
  score_bounded parse_none 0 scenario_b "prod" "Network"
    (analyze_load_balancer_health parse_none 0 scenario_b "prod" "Network") rfl

/-- C10: an absent `lifecycle_state` is read back as "UNKNOWN", which is not
among ACTIVE/CREATING, so every record without a lifecycle state that scores
successfully receives the +30 contribution with reason "Load balancer in
UNKNOWN state" — it is never scored as if it were active. -/
theorem lifecycle_absent_unknown :
    lifecycleRule "UNKNOWN" = (30, ["Load balancer in UNKNOWN state"]) ∧
    (∀ (parse : String → Option Int) (now : Int) (lb_data : Record) (lb_type : String)
       (s : Nat) (rs : List String),
      lb_data.lifecycle_state = none →
      scoreAndReasons parse now lb_data lb_type = .ok (s, rs) →
      30 ≤ s ∧ "Load balancer in UNKNOWN state" ∈ rs) := by
  refine ⟨by decide, ?_⟩
  intro parse now lb_data lb_type s rs hnone h
  unfold scoreAndReasons at h
  split at h
  · simp at h
  · split at h
    · simp at h
    · split at h
      · simp at h
      · rename_i x1 res1 h1 x2 res2 h2 x3 res3 h3
        simp only [] at h
        rw [hnone] at h
        simp only [Option.getD_none] at h
        rw [show lifecycleRule "UNKNOWN" = (30, ["Load balancer in UNKNOWN state"])
            from by decide] at h
        injection h with h4
        rw [Prod.mk.injEq] at h4
        obtain ⟨hsc, hrs⟩ := h4
        subst hsc hrs
        constructor
        · omega
        · simp

/-- C10 witness: a concrete record without a lifecycle state gets the +30 and
its reason. -/
theorem lifecycle_absent_unknown_witness :
    30 ≤ 120 ∧ "Load balancer in UNKNOWN state" ∈
      ["No backend sets configured", "No listeners configured",
       "Load balancer in UNKNOWN state"] :=
  lifecycle_absent_unknown.2 parse_none 0 rec_nostate "Classic" 120
    ["No backend sets configured", "No listeners configured",
     "Load balancer in UNKNOWN state"] rfl rfl

end GhostHunter
